import Mathlib

/-!
Verification of the `PlayerTracker` module of the cv-tennis-analysis
repository (`Trackers/player_tracker.py`) against its specification.

The Python code is shallowly embedded:

* a Python `dict` (insertion-ordered, unique keys) is an association list
  `List (ℤ × β)` together with the insertion-order-preserving update
  `dictSet`;
* Python float scalars are modelled as rationals `ℚ`; the float value
  `float("inf")` that seeds the minimum-distance accumulator is modelled by
  `Option ℚ` with `none` standing for infinity (the code only ever compares
  a finite distance against the accumulator, so this is order-faithful);
* fallible operations (list indexing, tuple unpacking, file reads,
  deserialization) return `Except PyErr`;
* the external tracking model (`self.model.track`, ultralytics YOLO) is a
  parameter `track : σ → Frame → σ × TrackResult` threading its own
  persistent state, as the spec's model boundary describes;
* the pickle cache file is a key/blob store `Store`; a stored blob is
  either a well-formed detection sequence or corrupt;
* a video frame is an abstract buffer accumulating render commands
  (`cv2.putText` / `cv2.rectangle` calls), so that drawing is observable
  while detection data is threaded explicitly.
-/

/-- Kinds of Python runtime errors raised by the embedded code paths. -/
inductive PyErr where
  /-- `IndexError`: sequence index out of range. -/
  | indexError : PyErr
  /-- `ValueError`: e.g. unpacking a sequence of the wrong length. -/
  | valueError : PyErr
  /-- unhandled type/attribute error, e.g. a detection whose `box.id` is `None`. -/
  | typeError : PyErr
  /-- `FileNotFoundError`: opening a missing cache file. -/
  | fileNotFoundError : PyErr
  /-- `pickle.UnpicklingError`: deserializing a corrupt cache blob. -/
  | unpicklingError : PyErr
deriving DecidableEq, Repr

/-- Python list indexing `xs[i]` for a nonnegative index: raises `IndexError`
when out of range. -/
def pyGet {α : Type} (xs : List α) (i : Nat) : Except PyErr α :=
  match xs.get? i with
  | some x => Except.ok x
  | none => Except.error PyErr.indexError

/-- Python `range(a, b)` with step 1: the list `[a, a+1, ..., b-1]`, empty
when `b ≤ a`. -/
def pyRange (a b : Nat) : List Nat :=
  (List.range b).drop a

/-- A frame detection set: Python dict from track identity to bounding box,
as an insertion-ordered association list with unique keys. -/
abbrev FrameDict : Type := List (ℤ × List ℚ)

deriving instance DecidableEq for Except

/-- Python dict update `d[k] = v`: replaces in place when the key is present
(keeping its position), otherwise appends at the end. -/
def dictSet {β : Type} (d : List (ℤ × β)) (k : ℤ) (v : β) : List (ℤ × β) :=
  if d.any (fun p => p.1 = k) then
    d.map (fun p => if p.1 = k then (k, v) else p)
  else
    d ++ [(k, v)]

/-- Modelled from the spec: `get_center_of_bbox` from `Utils/bbox_utils`
(that file is not under `src/`). Per the spec it computes the bounding-box
center as the midpoint of the box; a bounding box is four scalar
coordinates `(x1, y1, x2, y2)`, so any other arity fails unpacking. -/
def get_center_of_bbox (bbox : List ℚ) : Except PyErr (ℚ × ℚ) :=
  match bbox with
  | [x1, y1, x2, y2] => Except.ok ((x1 + x2) / 2, (y1 + y2) / 2)
  | _ => Except.error PyErr.valueError

/-- Modelled from the spec: `measure_distance` from `Utils/bbox_utils`
(that file is not under `src/`). Per the spec it is the Euclidean distance
between two points; it is represented here by its square, a rational, which
preserves every order comparison the code performs. The second argument is
indexed at 0 and 1, matching the source call site where a whole coordinate
list may be passed in place of a point. -/
def measure_distance (p1 : ℚ × ℚ) (p2 : List ℚ) : Except PyErr ℚ := do
  let x2 ← pyGet p2 0
  let y2 ← pyGet p2 1
  pure ((p1.1 - x2) * (p1.1 - x2) + (p1.2 - y2) * (p1.2 - y2))

/-- The float `<` comparison `distance < min_distance` where the accumulator
may be `float("inf")` (`none`): a finite value is below infinity. -/
def ltInf (d : ℚ) (md : Option ℚ) : Bool :=
  match md with
  | none => true
  | some m => decide (d < m)

/-- The float `≤` comparison on sort keys that may be `float("inf")`. -/
def leInf (a b : Option ℚ) : Bool :=
  match a, b with
  | none, none => true
  | none, some _ => false
  | some _, none => true
  | some x, some y => decide (x ≤ y)

/-- Insert an element into an already sorted list, after every element whose
key is `≤` its own key: the insertion step of a stable ascending sort. -/
def insertStable {α : Type} (key : α → Option ℚ) (x : α) : List α → List α
  | [] => [x]
  | y :: ys => if leInf (key y) (key x) then y :: insertStable key x ys else x :: y :: ys

/-- Python's stable `list.sort(key=...)` (ascending), via stable insertion;
stable sorts of a list under a total preorder on keys coincide, so this is
extensionally the sort the source performs. -/
def pySortByKey {α : Type} (key : α → Option ℚ) (l : List α) : List α :=
  l.foldl (fun acc x => insertStable key x acc) []

/-- The inner keypoint loop of `choose_players`, for one player:
`min_distance = float("inf")`, then `for i in range(len(court_keypoints), 2)`
builds the pair `(court_keypoints[i], court_keypoints[i+1])`, measures the
distance from the center to the whole keypoint list, and keeps the minimum.
(The range is empty whenever the keypoint list has length ≥ 2.) -/
def scoreLoop (court_keypoints : List ℚ) (player_center : ℚ × ℚ) :
    Except PyErr (Option ℚ) :=
  (pyRange court_keypoints.length 2).foldlM
    (fun md i => do
      let _ ← pyGet court_keypoints i
      let _ ← pyGet court_keypoints (i + 1)
      let d ← measure_distance player_center court_keypoints
      pure (if ltInf d md then some d else md))
    none

/-- `PlayerTracker.choose_players`: score every entry of the frame detection
set by the inner keypoint loop, stable-sort the `(track_id, min_distance)`
pairs by distance, and return the first two track identities. -/
def choose_players (court_keypoints : List ℚ) (player_detections_dict : FrameDict) :
    Except PyErr (List ℤ) := do
  let distances ← player_detections_dict.foldlM
    (fun acc p => do
      let player_center ← get_center_of_bbox p.2
      let md ← scoreLoop court_keypoints player_center
      pure (acc ++ [(p.1, md)]))
    ([] : List (ℤ × Option ℚ))
  let sorted := pySortByKey Prod.snd distances
  pure ((sorted.take 2).map Prod.fst)

/-- `PlayerTracker.choose_and_filter_players`: choose from the first frame's
detection set, then keep in every frame only the entries whose identity was
chosen. -/
def choose_and_filter_players (court_keypoints : List ℚ)
    (player_detections : List FrameDict) : Except PyErr (List FrameDict) := do
  let player_detections_first_frame ← pyGet player_detections 0
  let chosen_players ← choose_players court_keypoints player_detections_first_frame
  pure (player_detections.map
    (fun player_dict => player_dict.filter (fun p => chosen_players.contains p.1)))

/-- Stated from the spec's §4.4 data model (not from the source), for
comparison with the source selector: the midpoint of a four-coordinate
bounding box. Boxes always have four coordinates in the spec's data model;
other arities are given a dummy center. -/
def specCenter (bbox : List ℚ) : ℚ × ℚ :=
  match bbox with
  | [x1, y1, x2, y2] => ((x1 + x2) / 2, (y1 + y2) / 2)
  | _ => (0, 0)

/-- Stated from the spec's §4.4 algorithm (not from the source): the court
keypoints taken as consecutive coordinate pairs (x, y). -/
def specKeypointPairs : List ℚ → List (ℚ × ℚ)
  | [] => []
  | [_] => []
  | x :: y :: rest => (x, y) :: specKeypointPairs rest

/-- Stated from the spec's §4.4 algorithm (not from the source): a player's
score is the minimum over all keypoint pairs of the Euclidean distance from
the player center to that keypoint, here represented by the squared
distance, which preserves the ordering of scores. -/
def specScore (center : ℚ × ℚ) (court_keypoints : List ℚ) : Option ℚ :=
  (specKeypointPairs court_keypoints).foldl
    (fun md kp =>
      let d := (center.1 - kp.1) * (center.1 - kp.1) + (center.2 - kp.2) * (center.2 - kp.2)
      if ltInf d md then some d else md)
    none

/-- Stated from the spec's §4.4 algorithm (not from the source), to compare
against `choose_players`: score every identity by its minimum distance to a
keypoint, stable-sort ascending by score, take the two smallest. -/
def specChoosePlayers (court_keypoints : List ℚ) (player_detections_dict : FrameDict) :
    List ℤ :=
  ((pySortByKey Prod.snd
      (player_detections_dict.map (fun p => (p.1, specScore (specCenter p.2) court_keypoints)))).take 2).map
    Prod.fst

/-- A detection reported by the external tracking model: a possibly missing
track identity (`box.id`), a class identifier (`box.cls`), and the bounding
box (`box.xyxy`). -/
structure RawBox where
  id : Option ℤ
  cls : Nat
  xyxy : List ℚ

/-- One output of `model.track(frame, persist=True)`: the class-name table
(`results.names`) and the detected boxes (`results.boxes`). -/
structure TrackResult where
  names : Nat → String
  boxes : List RawBox

/-- The loop body of `detect_frame`: read the track identity (raising an
unhandled type error when `box.id` is `None`, before the class check, as in
the source), then store the box under its identity when its class name is
"person". -/
def addBox (names : Nat → String) (player_dict : FrameDict) (box : RawBox) :
    Except PyErr FrameDict :=
  match box.id with
  | none => Except.error PyErr.typeError
  | some track_id =>
    Except.ok (if names box.cls = "person" then dictSet player_dict track_id box.xyxy else player_dict)

/-- `PlayerTracker.detect_frame`: invoke the external model (threading its
persistent-identity state) and fold its boxes into a frame detection set. -/
def detect_frame {σ Frame : Type} (track : σ → Frame → σ × TrackResult) (s : σ)
    (frame : Frame) : σ × Except PyErr FrameDict :=
  let sr := track s frame
  (sr.1, sr.2.boxes.foldlM (addBox sr.2.names) ([] : FrameDict))

/-- The loop body of `detect_frame` on well-formed model output (every box
has a track identity): skipping a box with no identity instead of failing. -/
def addBoxTotal (names : Nat → String) (player_dict : FrameDict) (box : RawBox) :
    FrameDict :=
  match box.id with
  | none => player_dict
  | some track_id =>
    if names box.cls = "person" then dictSet player_dict track_id box.xyxy else player_dict

/-- The frame detection set `detect_frame` produces from one model output
when every box carries a track identity. -/
def personsDict (res : TrackResult) : FrameDict :=
  res.boxes.foldl (addBoxTotal res.names) []

/-- The model state after `detect_frame` has been run on a list of frames in
order. -/
def stateAfter {σ Frame : Type} (track : σ → Frame → σ × TrackResult) (s : σ)
    (fs : List Frame) : σ :=
  fs.foldl (fun s f => (track s f).1) s

/-- The detection sequence of a successful run of the detection loop: one
`personsDict` per frame, with the model state threaded in input order. -/
def runPersons {σ Frame : Type} (track : σ → Frame → σ × TrackResult) :
    σ → List Frame → List FrameDict
  | _, [] => []
  | s, f :: fs => personsDict (track s f).2 :: runPersons track (track s f).1 fs

/-- A value stored at the cache path: either a well-formed serialized
detection sequence or a corrupt blob that fails deserialization. -/
inductive Blob where
  | good (detections : List FrameDict) : Blob
  | corrupt : Blob

/-- The durable cache: an association of paths to stored blobs, most recent
write first. -/
abbrev Store : Type := List (String × Blob)

/-- Read the blob at a path, `none` when no file exists there. -/
def storeLookup (store : Store) (p : String) : Option Blob :=
  (store.find? (fun e => e.1 = p)).map Prod.snd

/-- Write a blob at a path, overwriting (shadowing) any previous content. -/
def storeSet (store : Store) (p : String) (b : Blob) : Store :=
  (p, b) :: store

/-- The detection loop of `detect_frames`: run `detect_frame` on each frame
in input order, threading model state, stopping at the first failure. Also
returns the list of frames actually passed to the detector, so that the
absence of model inference is observable. -/
def runDetect {σ Frame : Type} (det : σ → Frame → σ × Except PyErr FrameDict) :
    σ → List Frame → σ × Except PyErr (List FrameDict) × List Frame
  | s, [] => (s, Except.ok [], [])
  | s, f :: fs =>
    let sr := det s f
    match sr.2 with
    | Except.error e => (sr.1, Except.error e, [f])
    | Except.ok d =>
      let rest := runDetect det sr.1 fs
      (rest.1,
       (match rest.2.1 with
        | Except.ok ds => Except.ok (d :: ds)
        | Except.error e => Except.error e),
       f :: rest.2.2)

/-- `PlayerTracker.detect_frames`: when `read_from_stub` is true and a stub
path is given, deserialize the cached detection sequence (failing when the
file is absent or corrupt) without invoking the detector; otherwise run the
detector once per frame and, when a stub path is given, persist the result
there before returning. The result is the returned value (or error)
together with the final model state, the final store, and the frames the
detector was invoked on. -/
def detect_frames {σ Frame : Type} (track : σ → Frame → σ × TrackResult) (s : σ)
    (store : Store) (frames : List Frame) (read_from_stub : Bool)
    (stub_path : Option String) :
    Except PyErr (List FrameDict) × σ × Store × List Frame :=
  match read_from_stub, stub_path with
  | true, some p =>
    (match storeLookup store p with
     | none => (Except.error PyErr.fileNotFoundError, s, store, [])
     | some Blob.corrupt => (Except.error PyErr.unpicklingError, s, store, [])
     | some (Blob.good player_detections) => (Except.ok player_detections, s, store, []))
  | _, _ =>
    let r := runDetect (detect_frame track) s frames
    match r.2.1 with
    | Except.error e => (Except.error e, r.1, store, r.2.2)
    | Except.ok player_detections =>
      match stub_path with
      | some p =>
        (Except.ok player_detections, r.1, storeSet store p (Blob.good player_detections), r.2.2)
      | none => (Except.ok player_detections, r.1, store, r.2.2)

/-- Python `int()` on a rational scalar: truncation toward zero. -/
def pyInt (q : ℚ) : ℤ :=
  if 0 ≤ q then ⌊q⌋ else ⌈q⌉

/-- A render command issued on a frame buffer: `cv2.putText` or
`cv2.rectangle` with its arguments. -/
inductive DrawCmd where
  | text (label : String) (org : ℤ × ℤ) (fontScale : ℚ) (color : ℤ × ℤ × ℤ)
      (thickness : ℤ) : DrawCmd
  | rect (pt1 pt2 : ℤ × ℤ) (color : ℤ × ℤ × ℤ) (thickness : ℤ) : DrawCmd

/-- A frame buffer, observed as the render commands applied to it. -/
abbrev FrameBuf : Type := List DrawCmd

/-- The loop body of `draw_bboxes` for one (identity, box) entry: unpack the
box (`x1, y1, x2, y2 = bbox`, a `ValueError` for a wrong arity), put the
label text above the top-left corner, draw the rectangle. The entry itself
is re-emitted unchanged: the loop only reads the dict, so the dict it leaves
behind is the one it traversed. -/
def drawEntry (acc : FrameBuf × FrameDict) (entry : ℤ × List ℚ) :
    Except PyErr (FrameBuf × FrameDict) :=
  match entry.2 with
  | [x1, y1, x2, y2] =>
    Except.ok
      (acc.1 ++
        [DrawCmd.text (String.append "Player ID: " (toString entry.1))
            (pyInt x1, pyInt (y1 - 10)) (9 / 10) (0, 0, 255) 2,
         DrawCmd.rect (pyInt x1, pyInt y1) (pyInt x2, pyInt y2) (0, 0, 255) 2],
       acc.2 ++ [entry])
  | _ => Except.error PyErr.valueError

/-- The inner loop of `draw_bboxes` on one frame: draw every entry of the
frame's detection set onto the frame buffer, returning the buffer and the
detection set as the loop leaves it. -/
def drawPlayerDict (frame : FrameBuf) (player_dict : FrameDict) :
    Except PyErr (FrameBuf × FrameDict) :=
  player_dict.foldlM drawEntry (frame, [])

/-- The outer loop body of `draw_bboxes`: draw one zipped (frame, detection
set) pair and append the results. -/
def drawStep (acc : List FrameBuf × List FrameDict) (fp : FrameBuf × FrameDict) :
    Except PyErr (List FrameBuf × List FrameDict) := do
  let r ← drawPlayerDict fp.1 fp.2
  pure (acc.1 ++ [r.1], acc.2 ++ [r.2])

/-- `PlayerTracker.draw_bboxes`: zip frames with detection sets and draw
each frame's boxes; returns the output frames and, for each zipped frame,
the detection set as the drawing loop leaves it. -/
def draw_bboxes (frames : List FrameBuf) (player_detections : List FrameDict) :
    Except PyErr (List FrameBuf × List FrameDict) :=
  (frames.zip player_detections).foldlM drawStep ([], [])

/-- A concrete stand-in for the external tracking model, used to instantiate
theorems at concrete inputs: every call reports one "person" box with track
identity 1. -/
def demoTrack : Unit → Unit → Unit × TrackResult :=
  fun _ _ => ((), ⟨fun _ => "person", [⟨some 1, 0, [0, 0, 10, 10]⟩]⟩)

lemma length_four_eq {α : Type} {l : List α} (h : l.length = 4) :
    ∃ a b c d, l = [a, b, c, d] := by
  cases l with
  | nil => simp at h
  | cons a l =>
    cases l with
    | nil => simp at h
    | cons b l =>
      cases l with
      | nil => simp at h
      | cons c l =>
        cases l with
        | nil => simp at h
        | cons d l =>
          cases l with
          | nil => exact ⟨a, b, c, d, rfl⟩
          | cons e l => simp at h

lemma get_center_ok {bbox : List ℚ} (h : bbox.length = 4) :
    ∃ c, get_center_of_bbox bbox = Except.ok c := by
  obtain ⟨a, b, c, d, rfl⟩ := length_four_eq h
  exact ⟨_, rfl⟩

lemma pyRange_two_nil {a : Nat} (h : 2 ≤ a) : pyRange a 2 = [] :=
  List.drop_eq_nil_of_le (by simpa using h)

lemma scoreLoop_inf (kps : List ℚ) (c : ℚ × ℚ) (h : 2 ≤ kps.length) :
    scoreLoop kps c = Except.ok none := by
  unfold scoreLoop
  rw [pyRange_two_nil h]
  rfl

lemma ok_bind {ε α β : Type} (a : α) (f : α → Except ε β) :
    (Except.ok a >>= f : Except ε β) = f a :=
  rfl

lemma distances_all_inf (kps : List ℚ) (hk : 2 ≤ kps.length) (pdd : FrameDict) :
    ∀ (acc : List (ℤ × Option ℚ)), (∀ p ∈ pdd, p.2.length = 4) →
      pdd.foldlM
        (fun acc p => do
          let player_center ← get_center_of_bbox p.2
          let md ← scoreLoop kps player_center
          pure (acc ++ [(p.1, md)]))
        acc =
      Except.ok (acc ++ pdd.map (fun p => (p.1, (none : Option ℚ)))) := by
  induction pdd with
  | nil =>
    intro acc _
    simp only [List.map_nil, List.append_nil]
    rfl
  | cons p rest ih =>
    intro acc hb
    obtain ⟨c, hc⟩ := get_center_ok (hb p (by simp))
    rw [List.foldlM_cons]
    simp only [hc, scoreLoop_inf kps c hk, ok_bind, pure_bind]
    rw [ih (acc ++ [(p.1, none)]) (fun q hq => hb q (by simp [hq]))]
    simp

lemma insertStable_none {α : Type} (key : α → Option ℚ) (x : α) (l : List α)
    (hl : ∀ y ∈ l, key y = none) (hx : key x = none) :
    insertStable key x l = l ++ [x] := by
  induction l with
  | nil => rfl
  | cons y ys ih =>
    unfold insertStable
    rw [hl y (by simp), hx]
    simp only [leInf, if_true]
    rw [ih (fun z hz => hl z (by simp [hz]))]
    rfl

lemma foldl_insert_none {α : Type} (key : α → Option ℚ) (l : List α) :
    ∀ acc : List α, (∀ y ∈ acc, key y = none) → (∀ y ∈ l, key y = none) →
      l.foldl (fun a x => insertStable key x a) acc = acc ++ l := by
  induction l with
  | nil => intro acc _ _; simp
  | cons x xs ih =>
    intro acc hacc hl
    simp only [List.foldl_cons]
    rw [insertStable_none key x acc hacc (hl x (by simp))]
    rw [ih (acc ++ [x])
      (by
        intro y hy
        rcases List.mem_append.1 hy with h | h
        · exact hacc y h
        · simp only [List.mem_singleton] at h
          exact h ▸ hl x (by simp))
      (fun z hz => hl z (by simp [hz]))]
    simp

lemma pySort_none {α : Type} (key : α → Option ℚ) (l : List α)
    (hl : ∀ y ∈ l, key y = none) : pySortByKey key l = l := by
  unfold pySortByKey
  simpa using foldl_insert_none key l [] (by simp) hl

lemma choose_players_ok (kps : List ℚ) (pdd : FrameDict) (hk : 2 ≤ kps.length)
    (hb : ∀ p ∈ pdd, p.2.length = 4) :
    choose_players kps pdd = Except.ok ((pdd.map Prod.fst).take 2) := by
  unfold choose_players
  rw [distances_all_inf kps hk pdd [] hb]
  simp only [ok_bind, List.nil_append]
  rw [pySort_none _ _ (by
    intro y hy
    obtain ⟨p, _, rfl⟩ := List.mem_map.1 hy
    rfl)]
  simp only [List.map_take, List.map_map]
  rfl

/-- C1 (code bug): on detections `{1: [200,200,220,220], 2: [0,0,10,10]}` and
keypoints `[0,0, 5,5]`, `choose_players` returns `[1, 2]` although identity
2's box center `(5,5)` is at distance 0 from a keypoint and identity 1's is
far from every keypoint; the spec's §4.4 algorithm, stated independently as
`specChoosePlayers`, returns `[2, 1]`. The keypoint loop
`for i in range(len(court_keypoints), 2)` never executes for a keypoint list
of length ≥ 2, so every identity scores infinity and the stable sort keeps
insertion order. -/
theorem choose_players_ignores_keypoints_bug :
    choose_players [0, 0, 5, 5] [(1, [200, 200, 220, 220]), (2, [0, 0, 10, 10])] =
      Except.ok [1, 2] ∧
    specChoosePlayers [0, 0, 5, 5] [(1, [200, 200, 220, 220]), (2, [0, 0, 10, 10])] =
      [2, 1] := by
  constructor
  · decide
  · norm_num [specChoosePlayers, specScore, specCenter, specKeypointPairs, pySortByKey,
      insertStable, ltInf, leInf]

/-- C6: on the detection set `{1: [0,0,10,10], 2: [100,100,110,110]}` and
keypoints `[0,0, 200,200]`, `choose_players` returns `[1, 2]`. -/
theorem choose_players_scenario :
    choose_players [0, 0, 200, 200] [(1, [0, 0, 10, 10]), (2, [100, 100, 110, 110])] =
      Except.ok [1, 2] := by
  decide

/-- C7 (code bug): on the odd-length keypoint sequence `[0, 0, 0]` and a
non-empty detection set, `choose_players` returns normally instead of failing
fast with a descriptive malformed-keypoints error; and on the too-short
keypoint sequence `[0]` it fails with a bare out-of-range `IndexError`
(from `court_keypoints[i]` at `i = 1`) rather than a descriptive error. -/
theorem choose_players_malformed_keypoints_bug :
    choose_players [0, 0, 0] [(1, [0, 0, 10, 10])] = Except.ok [1] ∧
    choose_players [0] [(1, [0, 0, 10, 10])] = Except.error PyErr.indexError := by
  decide

/-- C8 (amended): for a frame detection set with fewer than two entries —
provided the set is empty, or the keypoint sequence is well-formed (at least
two scalars) and the boxes have four coordinates — `choose_players` returns
exactly the identities the set contains, in order, without error. -/
theorem choose_players_fewer_than_two (kps : List ℚ) (pdd : FrameDict)
    (hn : pdd.length ≤ 1)
    (h : pdd = [] ∨ (2 ≤ kps.length ∧ ∀ p ∈ pdd, p.2.length = 4)) :
    choose_players kps pdd = Except.ok (pdd.map Prod.fst) ∧
      (pdd.map Prod.fst).length = pdd.length := by
  refine ⟨?_, by simp⟩
  rcases h with rfl | ⟨hk, hb⟩
  · rfl
  · rw [choose_players_ok kps pdd hk hb]
    congr 1
    exact (List.take_eq_self_iff _).2 (by rw [List.length_map]; omega)

/-- Witness for C8: a singleton detection set with well-formed keypoints
yields exactly its one identity. -/
theorem choose_players_fewer_than_two_witness :
    choose_players [0, 0] [((5 : ℤ), [1, 2, 3, 4])] = Except.ok [5] ∧
      ([((5 : ℤ), ([1, 2, 3, 4] : List ℚ))].map Prod.fst).length =
        [((5 : ℤ), ([1, 2, 3, 4] : List ℚ))].length :=
  choose_players_fewer_than_two [0, 0] [(5, [1, 2, 3, 4])] (by decide)
    (Or.inr ⟨by decide, by decide⟩)

/-- Counterexample for C8 as stated: on the empty keypoint sequence, a
singleton detection set makes `choose_players` raise an out-of-range
`IndexError` instead of returning its one identity. -/
theorem choose_players_short_keypoints_cex :
    choose_players [] [(1, [0, 0, 10, 10])] = Except.error PyErr.indexError := by
  decide

/-- C5 (amended): for a non-empty detection sequence — provided its first
frame's detection set is empty, or the keypoint sequence is well-formed (at
least two scalars) and the first frame's boxes have four coordinates —
`choose_and_filter_players` computes the chosen identities from the first
frame's detection set alone and returns a sequence of the same length in
which each frame's mapping holds exactly those entries of the original frame
whose identity was chosen — so no identity absent from a frame is ever
introduced, and frames missing a chosen identity simply omit it. -/
theorem choose_and_filter_players_first_frame (kps : List ℚ) (pd0 : FrameDict)
    (rest : List FrameDict)
    (h : pd0 = [] ∨ (2 ≤ kps.length ∧ ∀ p ∈ pd0, p.2.length = 4)) :
    ∃ chosen, choose_players kps pd0 = Except.ok chosen ∧
      choose_and_filter_players kps (pd0 :: rest) =
        Except.ok ((pd0 :: rest).map
          (fun player_dict => player_dict.filter (fun p => chosen.contains p.1))) ∧
      ((pd0 :: rest).map
          (fun player_dict => player_dict.filter (fun p => chosen.contains p.1))).length =
        (pd0 :: rest).length := by
  have hcp : choose_players kps pd0 = Except.ok ((pd0.map Prod.fst).take 2) := by
    rcases h with rfl | ⟨hk, hb⟩
    · rfl
    · exact choose_players_ok kps pd0 hk hb
  refine ⟨(pd0.map Prod.fst).take 2, hcp, ?_, by simp⟩
  unfold choose_and_filter_players
  rw [show pyGet (pd0 :: rest) 0 = Except.ok pd0 from rfl]
  simp only [ok_bind]
  rw [hcp]
  simp only [ok_bind]
  rfl

/-- Witness for C5: a two-frame sequence where the second frame lacks one
chosen identity and holds an unchosen one. -/
theorem choose_and_filter_players_first_frame_witness :
    ∃ chosen,
      choose_players [0, 0] [((1 : ℤ), ([0, 0, 10, 10] : List ℚ)), (2, [100, 100, 110, 110])] =
        Except.ok chosen ∧
      choose_and_filter_players [0, 0]
          [[(1, [0, 0, 10, 10]), (2, [100, 100, 110, 110])],
           [(2, [100, 100, 110, 110]), (9, [0, 0, 1, 1])]] =
        Except.ok
          (([[((1 : ℤ), ([0, 0, 10, 10] : List ℚ)), (2, [100, 100, 110, 110])],
             [(2, [100, 100, 110, 110]), (9, [0, 0, 1, 1])]] : List FrameDict).map
            (fun player_dict => player_dict.filter (fun p => chosen.contains p.1))) ∧
      (([[((1 : ℤ), ([0, 0, 10, 10] : List ℚ)), (2, [100, 100, 110, 110])],
         [(2, [100, 100, 110, 110]), (9, [0, 0, 1, 1])]] : List FrameDict).map
          (fun player_dict => player_dict.filter (fun p => chosen.contains p.1))).length =
        ([[((1 : ℤ), ([0, 0, 10, 10] : List ℚ)), (2, [100, 100, 110, 110])],
          [(2, [100, 100, 110, 110]), (9, [0, 0, 1, 1])]] : List FrameDict).length :=
  choose_and_filter_players_first_frame [0, 0]
    [(1, [0, 0, 10, 10]), (2, [100, 100, 110, 110])]
    [[(2, [100, 100, 110, 110]), (9, [0, 0, 1, 1])]]
    (Or.inr ⟨by decide, by decide⟩)

/-- Counterexample for C5 as stated: with the empty keypoint sequence (still
a keypoint sequence) and a non-empty detection sequence, the selection step
raises an `IndexError`, so no filtered sequence is returned. -/
theorem choose_and_filter_players_short_keypoints_cex :
    choose_and_filter_players [] [[(1, [0, 0, 10, 10])]] =
      Except.error PyErr.indexError := by
  decide

/-- C10: on an empty detection sequence, `choose_and_filter_players` fails
with an out-of-range `IndexError` from reading the first frame's detection
set, for every keypoint sequence, rather than returning an empty filtered
sequence. -/
theorem choose_and_filter_players_empty_seq (kps : List ℚ) :
    choose_and_filter_players kps [] = Except.error PyErr.indexError :=
  rfl

lemma addBox_fold_ok (names : Nat → String) (boxes : List RawBox) :
    ∀ acc : FrameDict, (∀ b ∈ boxes, b.id ≠ none) →
      boxes.foldlM (addBox names) acc =
        Except.ok (boxes.foldl (addBoxTotal names) acc) := by
  induction boxes with
  | nil => intro acc _; rfl
  | cons b bs ih =>
    intro acc hb
    rw [List.foldlM_cons]
    cases hid : b.id with
    | none => exact absurd hid (hb b (by simp))
    | some tid =>
      have hab : addBox names acc b = Except.ok (addBoxTotal names acc b) := by
        unfold addBox addBoxTotal
        rw [hid]
      rw [hab, ok_bind, List.foldl_cons]
      exact ih _ (fun x hx => hb x (by simp [hx]))

lemma detect_frame_ok {σ Frame : Type} (track : σ → Frame → σ × TrackResult)
    (s : σ) (f : Frame) (H : ∀ b ∈ (track s f).2.boxes, b.id ≠ none) :
    detect_frame track s f = ((track s f).1, Except.ok (personsDict (track s f).2)) := by
  unfold detect_frame personsDict
  show ((track s f).1, List.foldlM (addBox (track s f).2.names) [] (track s f).2.boxes) = _
  rw [addBox_fold_ok _ _ _ H]

lemma runDetect_ok {σ Frame : Type} (track : σ → Frame → σ × TrackResult)
    (H : ∀ (s : σ) (f : Frame), ∀ b ∈ (track s f).2.boxes, b.id ≠ none)
    (s : σ) (fs : List Frame) :
    runDetect (detect_frame track) s fs =
      (stateAfter track s fs, Except.ok (runPersons track s fs), fs) := by
  induction fs generalizing s with
  | nil => rfl
  | cons f fs ih =>
    rw [runDetect, detect_frame_ok track s f (H s f)]
    simp only [ih ((track s f).1)]
    rfl

lemma runPersons_length {σ Frame : Type} (track : σ → Frame → σ × TrackResult)
    (s : σ) (fs : List Frame) : (runPersons track s fs).length = fs.length := by
  induction fs generalizing s with
  | nil => rfl
  | cons f fs ih => simp [runPersons, ih]

lemma runPersons_get {σ Frame : Type} (track : σ → Frame → σ × TrackResult)
    (fs : List Frame) :
    ∀ (s : σ) (i : Nat) (f : Frame), fs.get? i = some f →
      (runPersons track s fs).get? i =
        some (personsDict (track (stateAfter track s (fs.take i)) f).2) := by
  induction fs with
  | nil => intro s i f h; simp at h
  | cons g gs ih =>
    intro s i f h
    cases i with
    | zero =>
      simp only [List.get?] at h
      cases h
      rfl
    | succ i =>
      simp only [List.get?] at h
      exact ih (track s g).1 i f h

lemma detect_frames_compute {σ Frame : Type} (track : σ → Frame → σ × TrackResult)
    (H : ∀ (s : σ) (f : Frame), ∀ b ∈ (track s f).2.boxes, b.id ≠ none)
    (s : σ) (store : Store) (frames : List Frame) (sp : Option String) :
    detect_frames track s store frames false sp =
      (Except.ok (runPersons track s frames), stateAfter track s frames,
       (match sp with
        | some p => storeSet store p (Blob.good (runPersons track s frames))
        | none => store),
       frames) := by
  unfold detect_frames
  rw [runDetect_ok track H s frames]
  cases sp <;> rfl

lemma storeLookup_set (store : Store) (p : String) (b : Blob) :
    storeLookup (storeSet store p b) p = some b := by
  simp [storeLookup, storeSet, List.find?]

lemma detect_frames_read_eq {σ Frame : Type} (track : σ → Frame → σ × TrackResult)
    (s : σ) (store : Store) (frames : List Frame) (p : String) :
    detect_frames track s store frames true (some p) =
      match storeLookup store p with
      | none => (Except.error PyErr.fileNotFoundError, s, store, [])
      | some Blob.corrupt => (Except.error PyErr.unpicklingError, s, store, [])
      | some (Blob.good D) => (Except.ok D, s, store, []) :=
  rfl

/-- C4: with a well-formed external model (every reported box carries a
track identity), `detect_frames` without a cache read returns a detection
sequence of exactly the input's length whose i-th element is the result of
`detect_frame` on the i-th input frame at the model state reached after the
first i frames. -/
theorem detect_frames_length_order {σ Frame : Type}
    (track : σ → Frame → σ × TrackResult) (s : σ) (store : Store)
    (frames : List Frame) (sp : Option String)
    (H : ∀ (s : σ) (f : Frame), ∀ b ∈ (track s f).2.boxes, b.id ≠ none) :
    (detect_frames track s store frames false sp).1 =
        Except.ok (runPersons track s frames) ∧
      (runPersons track s frames).length = frames.length ∧
      ∀ i f, frames.get? i = some f →
        ∃ d, (detect_frame track (stateAfter track s (frames.take i)) f).2 =
            Except.ok d ∧
          (runPersons track s frames).get? i = some d := by
  refine ⟨by rw [detect_frames_compute track H s store frames sp], runPersons_length track s frames, ?_⟩
  intro i f hf
  refine ⟨personsDict (track (stateAfter track s (frames.take i)) f).2, ?_, runPersons_get track frames s i f hf⟩
  rw [detect_frame_ok track _ f (H _ f)]

/-- Witness for C4: a two-frame run of the demo model returns two detection
sets, one per frame, in order. -/
theorem detect_frames_length_order_witness :
    (detect_frames demoTrack () [] [(), ()] false none).1 =
        Except.ok (runPersons demoTrack () [(), ()]) ∧
      (runPersons demoTrack () [(), ()]).length = ([(), ()] : List Unit).length ∧
      ∀ i f, ([(), ()] : List Unit).get? i = some f →
        ∃ d, (detect_frame demoTrack
              (stateAfter demoTrack () (([(), ()] : List Unit).take i)) f).2 =
            Except.ok d ∧
          (runPersons demoTrack () [(), ()]).get? i = some d :=
  detect_frames_length_order demoTrack () [] [(), ()] none
    (by
      intro _ _ b hb
      simp only [demoTrack, List.mem_singleton] at hb
      subst hb
      simp)

/-- C2: a detection sequence computed and written to the cache location by
`detect_frames` is returned bit-for-bit by a later `detect_frames` call that
reads from the same location. -/
theorem detect_frames_roundtrip {σ Frame : Type}
    (track : σ → Frame → σ × TrackResult) (s s₂ : σ) (store : Store)
    (frames frames₂ : List Frame) (p : String)
    (H : ∀ (s : σ) (f : Frame), ∀ b ∈ (track s f).2.boxes, b.id ≠ none) :
    ∃ D, (detect_frames track s store frames false (some p)).1 = Except.ok D ∧
      (detect_frames track s₂ (detect_frames track s store frames false (some p)).2.2.1
          frames₂ true (some p)).1 = Except.ok D := by
  refine ⟨runPersons track s frames, ?_, ?_⟩
  · rw [detect_frames_compute track H s store frames (some p)]
  · rw [detect_frames_compute track H s store frames (some p)]
    show (detect_frames track s₂ (storeSet store p (Blob.good (runPersons track s frames)))
        frames₂ true (some p)).1 = _
    rw [detect_frames_read_eq, storeLookup_set]

/-- Witness for C2: write one computed detection sequence to "stub.pkl"
with the demo model, read it back, and obtain the same sequence. -/
theorem detect_frames_roundtrip_witness :
    ∃ D, (detect_frames demoTrack () [] [()] false (some "stub.pkl")).1 = Except.ok D ∧
      (detect_frames demoTrack ()
          (detect_frames demoTrack () [] [()] false (some "stub.pkl")).2.2.1
          [] true (some "stub.pkl")).1 = Except.ok D :=
  detect_frames_roundtrip demoTrack () () [] [()] [] "stub.pkl"
    (by
      intro _ _ b hb
      simp only [demoTrack, List.mem_singleton] at hb
      subst hb
      simp)

/-- C3: with `read_from_stub` true and a stub path set, `detect_frames`
returns the stored detection sequence when the cache holds one, fails with a
file-not-found error when the cache file is absent and a deserialization
error when it is corrupt — and in all three cases invokes the detector on no
frame (the final component, the frames passed to the detector, is empty) and
leaves model state and store untouched. -/
theorem detect_frames_cache_read {σ Frame : Type}
    (track : σ → Frame → σ × TrackResult) (s : σ) (store : Store)
    (frames : List Frame) (p : String) :
    (storeLookup store p = none →
      detect_frames track s store frames true (some p) =
        (Except.error PyErr.fileNotFoundError, s, store, [])) ∧
    (storeLookup store p = some Blob.corrupt →
      detect_frames track s store frames true (some p) =
        (Except.error PyErr.unpicklingError, s, store, [])) ∧
    ∀ D, storeLookup store p = some (Blob.good D) →
      detect_frames track s store frames true (some p) =
        (Except.ok D, s, store, []) := by
  refine ⟨fun h => ?_, fun h => ?_, fun D h => ?_⟩ <;>
    · rw [detect_frames_read_eq, h]

/-- Witness for C3: reading from an empty store fails with a file-not-found
error and passes no frame to the detector. -/
theorem detect_frames_cache_read_witness :
    storeLookup [] "stub2.pkl" = none ∧
      detect_frames demoTrack () [] [()] true (some "stub2.pkl") =
        (Except.error PyErr.fileNotFoundError, (), [], []) :=
  ⟨rfl, (detect_frames_cache_read demoTrack () [] [()] "stub2.pkl").1 rfl⟩

lemma drawEntry_fold (pd : FrameDict) :
    ∀ (fr : FrameBuf) (acc : FrameDict), (∀ p ∈ pd, p.2.length = 4) →
      ∃ out, pd.foldlM drawEntry (fr, acc) = Except.ok (out, acc ++ pd) := by
  induction pd with
  | nil =>
    intro fr acc _
    refine ⟨fr, ?_⟩
    simp only [List.append_nil]
    rfl
  | cons e es ih =>
    intro fr acc hb
    obtain ⟨tid, bbox⟩ := e
    obtain ⟨a, b, c, d, rfl⟩ := length_four_eq (hb (tid, bbox) (by simp))
    obtain ⟨fr2, hde⟩ : ∃ fr2, drawEntry (fr, acc) (tid, [a, b, c, d]) =
        Except.ok (fr2, acc ++ [(tid, [a, b, c, d])]) := ⟨_, rfl⟩
    rw [List.foldlM_cons, hde, ok_bind]
    obtain ⟨out, hout⟩ := ih fr2 (acc ++ [(tid, [a, b, c, d])])
      (fun q hq => hb q (by simp [hq]))
    refine ⟨out, ?_⟩
    rw [hout]
    simp

lemma drawPlayerDict_ok (frame : FrameBuf) (pd : FrameDict)
    (hb : ∀ p ∈ pd, p.2.length = 4) :
    ∃ out, drawPlayerDict frame pd = Except.ok (out, pd) := by
  obtain ⟨out, h⟩ := drawEntry_fold pd frame [] hb
  refine ⟨out, ?_⟩
  rw [drawPlayerDict, h]
  simp

lemma drawStep_fold (zl : List (FrameBuf × FrameDict)) :
    ∀ (acc1 : List FrameBuf) (acc2 : List FrameDict),
      (∀ fp ∈ zl, ∀ p ∈ fp.2, p.2.length = 4) →
      ∃ outs, zl.foldlM drawStep (acc1, acc2) =
        Except.ok (outs, acc2 ++ zl.map Prod.snd) := by
  induction zl with
  | nil =>
    intro a1 a2 _
    refine ⟨a1, ?_⟩
    simp only [List.map_nil, List.append_nil]
    rfl
  | cons fp zs ih =>
    intro a1 a2 h
    obtain ⟨out, hout⟩ := drawPlayerDict_ok fp.1 fp.2 (h fp (by simp))
    have hstep : drawStep (a1, a2) fp = Except.ok (a1 ++ [out], a2 ++ [fp.2]) := by
      unfold drawStep
      rw [hout]
      rfl
    rw [List.foldlM_cons, hstep, ok_bind]
    obtain ⟨outs, houts⟩ := ih (a1 ++ [out]) (a2 ++ [fp.2])
      (fun q hq => h q (by simp [hq]))
    refine ⟨outs, ?_⟩
    rw [houts]
    simp

/-- C9: drawing alters no detection data — on frame detection sets of
four-coordinate boxes, `draw_bboxes` succeeds and the detection sets as the
drawing loop leaves them are exactly the zipped originals; only frame
buffers are produced. -/
theorem draw_bboxes_preserves_detections (frames : List FrameBuf)
    (pds : List FrameDict) (hb : ∀ pd ∈ pds, ∀ p ∈ pd, p.2.length = 4) :
    ∃ out, draw_bboxes frames pds =
      Except.ok (out, (frames.zip pds).map Prod.snd) := by
  obtain ⟨outs, houts⟩ := drawStep_fold (frames.zip pds) [] []
    (fun fp hfp => hb fp.2 (List.of_mem_zip hfp).2)
  refine ⟨outs, ?_⟩
  rw [draw_bboxes, houts]
  simp

/-- Witness for C9: drawing a two-frame sequence whose second detection set
is empty leaves both detection sets intact. -/
theorem draw_bboxes_preserves_detections_witness :
    ∃ out, draw_bboxes [[], []] [[(1, [0, 0, 10, 10])], []] =
      Except.ok (out,
        (([[], []] : List FrameBuf).zip
          ([[((1 : ℤ), ([0, 0, 10, 10] : List ℚ))], []] : List FrameDict)).map Prod.snd) :=
  draw_bboxes_preserves_detections [[], []] [[(1, [0, 0, 10, 10])], []] (by decide)
